import Mathlib

/-!
Shallow embedding of the athlete-management CRUD service
(src/backend/main.py) and verification of its specification.

Modelling conventions:
* machine integers are Nat/Int; SQL `Float` columns (peso, altura) are
  modelled as Rat, since the service only stores and compares them;
* UUIDs are modelled as Nat drawn from a fresh supply in the state
  (uuid4 collisions are ignored, matching the practical contract of the
  unique index on the id columns);
* timestamps are a Nat taken from the state clock;
* the relational store is the lists of rows in `DB`; a transaction is a
  pure function from states to states; commit checks the declared
  column constraints of the schema and either yields the new state or a
  store-level error, in which case the handler rolls back, i.e. returns
  the original state, exactly as every exception branch of the source
  does;
* response bodies and Portuguese detail strings are abstracted away;
  `Resp` keeps the data the specification talks about (status code,
  redirect Location target, returned rows).
-/

/-- Row of the `categoria` table: serial primary key, unique UUID,
unique name limited to 10 characters. -/
structure Categoria where
  pk_id : Nat
  id : Nat
  nome : String
deriving DecidableEq, Repr

/-- Row of the `centro_treinamento` table. -/
structure CentroTreinamento where
  pk_id : Nat
  id : Nat
  nome : String
  endereco : String
  proprietario : String
deriving DecidableEq, Repr

/-- Row of the `atleta` table, with integer foreign keys into
`categoria.pk_id` and `centro_treinamento.pk_id`. -/
structure Atleta where
  pk_id : Nat
  id : Nat
  nome : String
  cpf : String
  idade : Int
  peso : Rat
  altura : Rat
  sexo : String
  created_at : Nat
  categoria_id : Nat
  centro_treinamento_id : Nat
deriving DecidableEq, Repr

/-- The relational store plus the server-assigned-value supplies:
one serial sequence per table, a UUID supply and a clock. -/
structure DB where
  categorias : List Categoria
  centros_treinamento : List CentroTreinamento
  atletas : List Atleta
  next_pk_categoria : Nat
  next_pk_centro : Nat
  next_pk_atleta : Nat
  next_uuid : Nat
  now : Nat
deriving DecidableEq, Repr

/-- The store produced by `Base.metadata.create_all`: empty tables,
sequences starting at 1. -/
def DB.empty : DB :=
  { categorias := [], centros_treinamento := [], atletas := []
    next_pk_categoria := 1, next_pk_centro := 1, next_pk_atleta := 1
    next_uuid := 0, now := 0 }

/-- Page returned by the athlete list endpoint (`AtletaPaginatedOut`):
items are the selected rows, before response-model serialization. -/
structure AtletaPage where
  items : List Atleta
  total : Nat
  limit : Nat
  offset : Nat
deriving DecidableEq, Repr

/-- Service outcome, keeping exactly the observable data the routes
produce: the taxonomy outcome and, for a redirect, the Location target
(route prefix and the UUID of the existing record). -/
inductive Resp where
  | okRoot : Resp
  | okCategoria : Categoria → Resp
  | okCategoriaList : List Categoria → Resp
  | okCentro : CentroTreinamento → Resp
  | okCentroList : List CentroTreinamento → Resp
  | okAtleta : Atleta → Resp
  | okAtletaPage : AtletaPage → Resp
  | createdCategoria : Categoria → Resp
  | createdCentro : CentroTreinamento → Resp
  | createdAtleta : Atleta → Resp
  | noContent : Resp
  | redirect : String → Nat → Resp
  | notFound : Resp
  | conflict : Resp
  | unprocessable : Resp
  | serverError : Resp
deriving DecidableEq, Repr

/-- HTTP status code of each outcome, as assigned by the router. -/
def Resp.status : Resp → Nat
  | .okRoot => 200
  | .okCategoria _ => 200
  | .okCategoriaList _ => 200
  | .okCentro _ => 200
  | .okCentroList _ => 200
  | .okAtleta _ => 200
  | .okAtletaPage _ => 200
  | .createdCategoria _ => 201
  | .createdCentro _ => 201
  | .createdAtleta _ => 201
  | .noContent => 204
  | .redirect _ _ => 303
  | .notFound => 404
  | .conflict => 409
  | .unprocessable => 422
  | .serverError => 500

/-- An outcome that is not a success, i.e. the redirect or one of the
error outcomes of the taxonomy. -/
def isErrResp (r : Resp) : Bool := 300 ≤ r.status

/-- Pydantic input schema `CategoriaIn`. -/
structure CategoriaIn where
  nome : String
deriving DecidableEq, Repr

/-- Validation of `CategoriaIn`: nome required, max_length 10. -/
def validCategoriaIn (b : CategoriaIn) : Bool := b.nome.length ≤ 10

/-- Pydantic input schema `CentroTreinamentoIn`. -/
structure CentroTreinamentoIn where
  nome : String
  endereco : String
  proprietario : String
deriving DecidableEq, Repr

/-- Validation of `CentroTreinamentoIn`: max_length 50 / 100 / 50. -/
def validCentroTreinamentoIn (b : CentroTreinamentoIn) : Bool :=
  b.nome.length ≤ 50 && b.endereco.length ≤ 100 && b.proprietario.length ≤ 50

/-- Pydantic input schema `AtletaIn` (field values after JSON parsing,
before the constraint checks). -/
structure AtletaIn where
  nome : String
  cpf : String
  idade : Int
  peso : Rat
  altura : Rat
  sexo : String
  centro_treinamento_pk_id : Nat
  categoria_pk_id : Nat
deriving DecidableEq, Repr

/-- The cpf constraint of `AtletaIn`: min_length 11, max_length 11 and
pattern of exactly 11 digits. -/
def cpfDigits (cpf : String) : Bool :=
  cpf.length == 11 && cpf.toList.all Char.isDigit

/-- Validation of `AtletaIn`: nome max_length 100, the cpf pattern,
idade / peso / altura strictly positive, sexo matching the one-letter
pattern M or F. -/
def validAtletaIn (b : AtletaIn) : Bool :=
  b.nome.length ≤ 100 && cpfDigits b.cpf &&
  decide (0 < b.idade) && decide (0 < b.peso) && decide (0 < b.altura) &&
  (b.sexo == "M" || b.sexo == "F")

/-- Pydantic input schema `AtletaUpdate`: every field optional and
unconstrained. The outer Option is pydantic field presence (none means
the field was absent from the request body, so `model_dump` with
exclude_unset drops it); the inner Option is an explicit JSON null.
The two reference fields carry UUID values in the source although the
underlying columns are integers. -/
structure AtletaUpdate where
  nome : Option (Option String)
  cpf : Option (Option String)
  idade : Option (Option Int)
  peso : Option (Option Rat)
  altura : Option (Option Rat)
  sexo : Option (Option String)
  categoria_id : Option (Option Nat)
  centro_treinamento_id : Option (Option Nat)
deriving DecidableEq, Repr

/-- Value of one column after the setattr loop of the patch handler:
a field supplied with a value replaces the stored one, anything else
leaves it as it was (explicit nulls never survive the commit, see
`updateCommitErr`). -/
def setVal {α : Type} (f : Option (Option α)) (old : α) : α :=
  match f with
  | some (some v) => v
  | _ => old

/-- Whether the update supplies an explicit null for this field. -/
def setNull {α : Type} (f : Option (Option α)) : Bool :=
  match f with
  | some none => true
  | _ => false

/-- Whether the update supplies a proper value for this field. -/
def setToValue {α : Type} (f : Option (Option α)) : Bool :=
  match f with
  | some (some _) => true
  | _ => false

/-- Whether any field of the update is an explicit null; every column
of the atleta table is NOT NULL, so such a flush raises
NotNullViolationError. -/
def anySetNull (u : AtletaUpdate) : Bool :=
  setNull u.nome || setNull u.cpf || setNull u.idade || setNull u.peso ||
  setNull u.altura || setNull u.sexo || setNull u.categoria_id ||
  setNull u.centro_treinamento_id

/-- The row resulting from the setattr loop for the six value columns;
the two reference fields are excluded because binding their UUID value
to the integer column fails before the row is changed. -/
def applyUpdate (u : AtletaUpdate) (a : Atleta) : Atleta :=
  { a with
    nome := setVal u.nome a.nome
    cpf := setVal u.cpf a.cpf
    idade := setVal u.idade a.idade
    peso := setVal u.peso a.peso
    altura := setVal u.altura a.altura
    sexo := setVal u.sexo a.sexo }

/-- Store-level failures surfaced by a commit, named after the asyncpg
exception classes the source dispatches on. -/
inductive CommitErr where
  | stringTruncation : CommitErr
  | uniqueViolation : CommitErr
  | notNullViolation : CommitErr
  | fkViolation : CommitErr
deriving DecidableEq, Repr

/-- Constraint check run by the commit of a categoria insert: column
width of nome (VARCHAR 10), then the unique index on nome. -/
def categoriaInsertErr (new : Categoria) (rows : List Categoria) : Option CommitErr :=
  if new.nome.length > 10 then some .stringTruncation
  else if rows.any (fun c => c.nome == new.nome) then some .uniqueViolation
  else none

/-- Constraint check run by the commit of a centro insert: column
widths (50 / 100 / 50), then the unique index on nome. -/
def centroInsertErr (new : CentroTreinamento) (rows : List CentroTreinamento) : Option CommitErr :=
  if new.nome.length > 50 || new.endereco.length > 100 || new.proprietario.length > 50 then
    some .stringTruncation
  else if rows.any (fun c => c.nome == new.nome) then some .uniqueViolation
  else none

/-- Constraint check run by the commit of an atleta insert: column
widths, the unique index on cpf, then the two foreign keys. -/
def atletaInsertErr (new : Atleta) (rows : List Atleta)
    (cats : List Categoria) (cts : List CentroTreinamento) : Option CommitErr :=
  if new.nome.length > 100 || new.cpf.length > 11 || new.sexo.length > 1 then
    some .stringTruncation
  else if rows.any (fun a => a.cpf == new.cpf) then some .uniqueViolation
  else if !(cats.any (fun c => c.pk_id == new.categoria_id)) then some .fkViolation
  else if !(cts.any (fun c => c.pk_id == new.centro_treinamento_id)) then some .fkViolation
  else none

/-- Failure classes of the patch commit as the handler distinguishes
them: IntegrityError maps to 409, every other store exception to 500. -/
inductive UpdFail where
  | integrity : UpdFail
  | serverSide : UpdFail
deriving DecidableEq, Repr

/-- Failure check of the patch commit, in the order the store raises:
binding a UUID parameter for the integer reference columns is a driver
DataError; an updated string value wider than its column raises during
row formation (also outside IntegrityError); an explicit null then hits
NOT NULL; finally the unique index on cpf checks the updated value
against every other row. -/
def updateCommitErr (u : AtletaUpdate) (cand : Atleta) (others : List Atleta) : Option UpdFail :=
  if setToValue u.categoria_id || setToValue u.centro_treinamento_id then some .serverSide
  else if cand.nome.length > 100 || cand.cpf.length > 11 || cand.sexo.length > 1 then
    some .serverSide
  else if anySetNull u then some .integrity
  else if others.any (fun b => b.cpf == cand.cpf) then some .integrity
  else none

/-- GET /categorias/ with validated skip and limit: no ORDER BY, so the
store default order, then OFFSET and LIMIT. -/
def read_categorias (skip limit : Nat) (s : DB) : List Categoria :=
  (s.categorias.drop skip).take limit

/-- GET /categorias/{id}: first row whose UUID matches, else 404. -/
def get_categoria_by_id (id : Nat) (s : DB) : Resp :=
  match s.categorias.find? (fun c => c.id == id) with
  | none => .notFound
  | some c => .okCategoria c

/-- POST /categorias/: look up an existing row by name first and
answer 303 with its UUID if found; otherwise insert, translating any
commit failure (truncation to 422, uniqueness to 409, missing column to
422, anything else to 500) after a rollback. -/
def create_categoria (body : CategoriaIn) (s : DB) : Resp × DB :=
  match s.categorias.find? (fun c => c.nome == body.nome) with
  | some existing => (.redirect "/categorias/" existing.id, s)
  | none =>
    let row : Categoria :=
      { pk_id := s.next_pk_categoria, id := s.next_uuid, nome := body.nome }
    match categoriaInsertErr row s.categorias with
    | some .stringTruncation => (.unprocessable, s)
    | some .uniqueViolation => (.conflict, s)
    | some .notNullViolation => (.unprocessable, s)
    | some .fkViolation => (.serverError, s)
    | none =>
      (.createdCategoria row,
       { s with categorias := s.categorias ++ [row]
                next_pk_categoria := s.next_pk_categoria + 1
                next_uuid := s.next_uuid + 1 })

/-- POST /centros_treinamento/: same protocol as the categoria create. -/
def create_centro_treinamento (body : CentroTreinamentoIn) (s : DB) : Resp × DB :=
  match s.centros_treinamento.find? (fun c => c.nome == body.nome) with
  | some existing => (.redirect "/centros_treinamento/" existing.id, s)
  | none =>
    let row : CentroTreinamento :=
      { pk_id := s.next_pk_centro, id := s.next_uuid, nome := body.nome
        endereco := body.endereco, proprietario := body.proprietario }
    match centroInsertErr row s.centros_treinamento with
    | some .stringTruncation => (.unprocessable, s)
    | some .uniqueViolation => (.conflict, s)
    | some .notNullViolation => (.unprocessable, s)
    | some .fkViolation => (.serverError, s)
    | none =>
      (.createdCentro row,
       { s with centros_treinamento := s.centros_treinamento ++ [row]
                next_pk_centro := s.next_pk_centro + 1
                next_uuid := s.next_uuid + 1 })

/-- GET /centros_treinamento/ with validated skip and limit. -/
def read_centros_treinamento (skip limit : Nat) (s : DB) : List CentroTreinamento :=
  (s.centros_treinamento.drop skip).take limit

/-- GET /centros_treinamento/{id}. -/
def get_centro_treinamento_by_id (id : Nat) (s : DB) : Resp :=
  match s.centros_treinamento.find? (fun c => c.id == id) with
  | none => .notFound
  | some c => .okCentro c

/-- POST /atletas/: check the cpf for a conflict, then that the
referenced categoria exists, then that the referenced centro exists,
and only then insert, with the same commit-failure translation as the
other creates plus the foreign-key case mapping to 422. -/
def create_atleta (body : AtletaIn) (s : DB) : Resp × DB :=
  match s.atletas.find? (fun a => a.cpf == body.cpf) with
  | some _ => (.conflict, s)
  | none =>
    match s.categorias.find? (fun c => c.pk_id == body.categoria_pk_id) with
    | none => (.notFound, s)
    | some categoria =>
      match s.centros_treinamento.find? (fun c => c.pk_id == body.centro_treinamento_pk_id) with
      | none => (.notFound, s)
      | some centro =>
        let row : Atleta :=
          { pk_id := s.next_pk_atleta, id := s.next_uuid
            nome := body.nome, cpf := body.cpf, idade := body.idade
            peso := body.peso, altura := body.altura, sexo := body.sexo
            created_at := s.now
            categoria_id := categoria.pk_id
            centro_treinamento_id := centro.pk_id }
        match atletaInsertErr row s.atletas s.categorias s.centros_treinamento with
        | some .stringTruncation => (.unprocessable, s)
        | some .uniqueViolation => (.conflict, s)
        | some .notNullViolation => (.unprocessable, s)
        | some .fkViolation => (.unprocessable, s)
        | none =>
          (.createdAtleta row,
           { s with atletas := s.atletas ++ [row]
                    next_pk_atleta := s.next_pk_atleta + 1
                    next_uuid := s.next_uuid + 1 })

/-- PATCH /atletas/{id}: fetch by UUID (404 if absent), apply the
explicitly supplied fields, commit; an IntegrityError rolls back to a
409, any other store failure rolls back to a 500. The UPDATE statement
touches every row sharing the primary key of the fetched one, which is
exactly one row in any state the store accepts. -/
def update_atleta (id : Nat) (u : AtletaUpdate) (s : DB) : Resp × DB :=
  match s.atletas.find? (fun a => a.id == id) with
  | none => (.notFound, s)
  | some a =>
    let cand := applyUpdate u a
    let others := s.atletas.filter (fun b => b.pk_id != a.pk_id)
    match updateCommitErr u cand others with
    | some .integrity => (.conflict, s)
    | some .serverSide => (.serverError, s)
    | none =>
      (.okAtleta cand,
       { s with atletas :=
          s.atletas.map (fun b => if b.pk_id == a.pk_id then applyUpdate u b else b) })

/-- DELETE /atletas/{id}: fetch by UUID (404 if absent) and delete by
primary key. No table references atleta, so the integrity-violation
branch of the source (409) is unreachable and the commit succeeds. -/
def delete_atleta (id : Nat) (s : DB) : Resp × DB :=
  match s.atletas.find? (fun a => a.id == id) with
  | none => (.notFound, s)
  | some a =>
    (.noContent, { s with atletas := s.atletas.filter (fun b => b.pk_id != a.pk_id) })

/-- Truthiness of an optional query string, as used by the two `if`
guards of the list handler: absent and empty both count as false. -/
def truthyFilter (o : Option String) : Bool :=
  match o with
  | none => false
  | some s => !s.isEmpty

/-- Ordering used by ORDER BY atleta.pk_id. -/
def pkle (a b : Atleta) : Prop := a.pk_id ≤ b.pk_id

instance : DecidableRel pkle := fun a b => Nat.decLe a.pk_id b.pk_id

instance : IsTotal Atleta pkle := ⟨fun a b => Nat.le_total a.pk_id b.pk_id⟩

instance : IsTrans Atleta pkle := ⟨fun _ _ _ h h2 => Nat.le_trans h h2⟩

/-- Whether a row matches the (truthy) filters of the list request. -/
def matchesFilters (nome cpf : Option String) (a : Atleta) : Bool :=
  (!truthyFilter nome || a.nome == nome.getD "") &&
  (!truthyFilter cpf || a.cpf == cpf.getD "")

/-- The base query of the athlete list handler: the table with the
name condition added if the filter is truthy, then the cpf condition
if that filter is truthy. -/
def atletasQuery (nome cpf : Option String) (s : DB) : List Atleta :=
  let base := s.atletas
  let base := if truthyFilter nome then base.filter (fun a => a.nome == nome.getD "") else base
  if truthyFilter cpf then base.filter (fun a => a.cpf == cpf.getD "") else base

/-- GET /atletas/: count the rows of the base query for total; order
the base query by pk_id and apply OFFSET and LIMIT for the page. -/
def read_atletas (nome cpf : Option String) (skip limit : Nat) (s : DB) : AtletaPage :=
  let base := atletasQuery nome cpf s
  { items := ((base.insertionSort pkle).drop skip).take limit
    total := base.length, limit := limit, offset := skip }

/-- GET /atletas/{id}. -/
def get_atleta_by_id (id : Nat) (s : DB) : Resp :=
  match s.atletas.find? (fun a => a.id == id) with
  | none => .notFound
  | some a => .okAtleta a

/-- One API request, carrying its raw input. -/
inductive Op where
  | root : Op
  | readCategorias : Int → Int → Op
  | getCategoriaById : Nat → Op
  | createCategoria : CategoriaIn → Op
  | createCentroTreinamento : CentroTreinamentoIn → Op
  | readCentrosTreinamento : Int → Int → Op
  | getCentroTreinamentoById : Nat → Op
  | createAtleta : AtletaIn → Op
  | updateAtleta : Nat → AtletaUpdate → Op
  | deleteAtleta : Nat → Op
  | readAtletas : Option String → Option String → Int → Int → Op
  | getAtletaById : Nat → Op
deriving DecidableEq, Repr

/-- Query-parameter validation of the list endpoints:
skip at least 0, limit between 1 and 100. -/
def pagParamsOk (skip limit : Int) : Bool :=
  0 ≤ skip && 1 ≤ limit && limit ≤ 100

/-- Input validation performed before the handler runs (pydantic body
models and FastAPI query constraints). -/
def opValid : Op → Bool
  | .readCategorias skip limit => pagParamsOk skip limit
  | .createCategoria b => validCategoriaIn b
  | .createCentroTreinamento b => validCentroTreinamentoIn b
  | .readCentrosTreinamento skip limit => pagParamsOk skip limit
  | .createAtleta b => validAtletaIn b
  | .readAtletas _ _ skip limit => pagParamsOk skip limit
  | _ => true

/-- One request against the service: validation first (a validation
failure answers 422 without touching the store), then the handler. -/
def step (op : Op) (s : DB) : Resp × DB :=
  if !opValid op then (.unprocessable, s)
  else
    match op with
    | .root => (.okRoot, s)
    | .readCategorias skip limit => (.okCategoriaList (read_categorias skip.toNat limit.toNat s), s)
    | .getCategoriaById id => (get_categoria_by_id id s, s)
    | .createCategoria b => create_categoria b s
    | .createCentroTreinamento b => create_centro_treinamento b s
    | .readCentrosTreinamento skip limit => (.okCentroList (read_centros_treinamento skip.toNat limit.toNat s), s)
    | .getCentroTreinamentoById id => (get_centro_treinamento_by_id id s, s)
    | .createAtleta b => create_atleta b s
    | .updateAtleta id b => update_atleta id b s
    | .deleteAtleta id => delete_atleta id s
    | .readAtletas nome cpf skip limit => (.okAtletaPage (read_atletas nome cpf skip.toNat limit.toNat s), s)
    | .getAtletaById id => (get_atleta_by_id id s, s)

/-- Run a sequence of requests. -/
def exec : List Op → DB → DB
  | [], s => s
  | op :: rest, s => exec rest (step op s).2

/-- A store state produced by some request sequence from the empty
store. -/
def Reachable (s : DB) : Prop := ∃ ops : List Op, exec ops DB.empty = s

/-- Whether the request is the patch endpoint. -/
def isPatchOp : Op → Bool
  | .updateAtleta _ _ => true
  | _ => false

/-- A store state produced without ever calling the patch endpoint. -/
def ReachableNoPatch (s : DB) : Prop :=
  ∃ ops : List Op, ops.all (fun op => !isPatchOp op) = true ∧ exec ops DB.empty = s

/-- Field invariants of an athlete row claimed by the specification:
positive idade, peso and altura, sexo M or F, cpf of 11 digits. -/
def atletaFieldOk (a : Atleta) : Prop :=
  0 < a.idade ∧ 0 < a.peso ∧ 0 < a.altura ∧ (a.sexo = "M" ∨ a.sexo = "F") ∧
  a.cpf.length = 11 ∧ a.cpf.toList.all Char.isDigit = true

/-- No two athlete rows share a cpf. -/
def cpfsNodup (s : DB) : Prop := (s.atletas.map (fun a => a.cpf)).Nodup

/-- Internal keys of the athlete rows are pairwise distinct. -/
def pksNodup (s : DB) : Prop := (s.atletas.map (fun a => a.pk_id)).Nodup

/-- Internal keys already used stay below the sequence value. -/
def pksBounded (s : DB) : Prop := ∀ a ∈ s.atletas, a.pk_id < s.next_pk_atleta

/-- Structural store invariant maintained by every operation. -/
def StoreInv (s : DB) : Prop := pksNodup s ∧ pksBounded s ∧ cpfsNodup s

/-- A request sequence creating one categoria (pk 1, uuid 0), one
centro (pk 1, uuid 1) and one athlete (pk 1, uuid 2). -/
def demoOps : List Op :=
  [ .createCategoria { nome := "Gi" },
    .createCentroTreinamento { nome := "CT Alpha", endereco := "Rua A 1", proprietario := "Bia" },
    .createAtleta { nome := "Ana", cpf := "12345678901", idade := 25, peso := 60,
                    altura := 2, sexo := "F", centro_treinamento_pk_id := 1,
                    categoria_pk_id := 1 } ]

/-- The store after `demoOps`. -/
def demoDB : DB := exec demoOps DB.empty

/-- An update request that only supplies idade, with a non-positive
value. -/
def badIdadeUpdate : AtletaUpdate :=
  { nome := none, cpf := none, idade := some (some (-5)), peso := none
    altura := none, sexo := none, categoria_id := none, centro_treinamento_id := none }

/-- `demoOps` followed by the patch setting idade to -5 on the athlete
with uuid 2. -/
def patchOps : List Op := demoOps ++ [ .updateAtleta 2 badIdadeUpdate ]

/-- Claim C10: supplying an empty string for the name or cpf filter of
the athlete list behaves exactly like omitting the filter: both are
falsy, so no equality condition is added and the result (items and
total) coincides with the unfiltered one. -/
theorem c10_empty_filter_ignored :
    ∀ (other : Option String) (skip limit : Nat) (s : DB),
      read_atletas (some "") other skip limit s = read_atletas none other skip limit s ∧
      read_atletas other (some "") skip limit s = read_atletas other none skip limit s := by
  intro other skip limit s
  exact ⟨rfl, rfl⟩

/-- Claim C9: an athlete create whose cpf is not a string of exactly
11 digits is rejected with a 422 validation outcome before any store
access: the response is a constant and the store is returned
unchanged. -/
theorem c9_invalid_cpf_rejected :
    ∀ (b : AtletaIn) (s : DB), cpfDigits b.cpf = false →
      step (.createAtleta b) s = (.unprocessable, s) := by
  intro b s h
  simp [step, opValid, validAtletaIn, h]

/-- Witness for C9 at a 10-digit cpf and the empty store. -/
theorem c9_invalid_cpf_rejected_witness :
    cpfDigits "1234567890" = false ∧
    step (.createAtleta { nome := "Ana", cpf := "1234567890", idade := 25, peso := 60,
                          altura := 2, sexo := "F", centro_treinamento_pk_id := 1,
                          categoria_pk_id := 1 }) DB.empty = (.unprocessable, DB.empty) :=
  ⟨by decide, c9_invalid_cpf_rejected _ DB.empty (by decide)⟩

/-- Claim C1: creating a Categoria or CentroTreinamento whose name
matches an existing record inserts nothing and does not fail: the
outcome is a 303 redirect whose Location target is the UUID of an
existing record with that name, and the store is unchanged. -/
theorem c1_duplicate_name_create_redirects :
    (∀ (b : CategoriaIn) (s : DB), validCategoriaIn b = true →
      (∃ c ∈ s.categorias, c.nome = b.nome) →
      ∃ c, c ∈ s.categorias ∧ c.nome = b.nome ∧
        step (.createCategoria b) s = (.redirect "/categorias/" c.id, s) ∧
        (step (.createCategoria b) s).1.status = 303) ∧
    (∀ (b : CentroTreinamentoIn) (s : DB), validCentroTreinamentoIn b = true →
      (∃ c ∈ s.centros_treinamento, c.nome = b.nome) →
      ∃ c, c ∈ s.centros_treinamento ∧ c.nome = b.nome ∧
        step (.createCentroTreinamento b) s = (.redirect "/centros_treinamento/" c.id, s) ∧
        (step (.createCentroTreinamento b) s).1.status = 303) := by
  constructor
  · intro b s hv hex
    have hs : (s.categorias.find? (fun c => c.nome == b.nome)).isSome = true := by
      rw [List.find?_isSome]
      obtain ⟨c, hc, he⟩ := hex
      exact ⟨c, hc, by simp [he]⟩
    obtain ⟨c, hc⟩ := Option.isSome_iff_exists.mp hs
    have heq : c.nome = b.nome := by simpa using List.find?_some hc
    have hstep : step (.createCategoria b) s = (.redirect "/categorias/" c.id, s) := by
      simp [step, opValid, hv, create_categoria, hc]
    exact ⟨c, List.mem_of_find?_eq_some hc, heq, hstep, by rw [hstep]; rfl⟩
  · intro b s hv hex
    have hs : (s.centros_treinamento.find? (fun c => c.nome == b.nome)).isSome = true := by
      rw [List.find?_isSome]
      obtain ⟨c, hc, he⟩ := hex
      exact ⟨c, hc, by simp [he]⟩
    obtain ⟨c, hc⟩ := Option.isSome_iff_exists.mp hs
    have heq : c.nome = b.nome := by simpa using List.find?_some hc
    have hstep : step (.createCentroTreinamento b) s = (.redirect "/centros_treinamento/" c.id, s) := by
      simp [step, opValid, hv, create_centro_treinamento, hc]
    exact ⟨c, List.mem_of_find?_eq_some hc, heq, hstep, by rw [hstep]; rfl⟩

/-- Witness for C1 at the demo store, repeating both create requests. -/
theorem c1_duplicate_name_create_redirects_witness :
    (∃ c, c ∈ demoDB.categorias ∧ c.nome = "Gi" ∧
      step (.createCategoria { nome := "Gi" }) demoDB = (.redirect "/categorias/" c.id, demoDB) ∧
      (step (.createCategoria { nome := "Gi" }) demoDB).1.status = 303) ∧
    (∃ c, c ∈ demoDB.centros_treinamento ∧ c.nome = "CT Alpha" ∧
      step (.createCentroTreinamento { nome := "CT Alpha", endereco := "Rua B 2", proprietario := "Zoe" }) demoDB
        = (.redirect "/centros_treinamento/" c.id, demoDB) ∧
      (step (.createCentroTreinamento { nome := "CT Alpha", endereco := "Rua B 2", proprietario := "Zoe" }) demoDB).1.status = 303) :=
  ⟨c1_duplicate_name_create_redirects.1 { nome := "Gi" } demoDB (by decide) (by decide),
   c1_duplicate_name_create_redirects.2
     { nome := "CT Alpha", endereco := "Rua B 2", proprietario := "Zoe" } demoDB
     (by decide) (by decide)⟩

/-- The base query of the list handler selects exactly the rows
matching the truthy filters. -/
theorem atletasQuery_eq_filter (nome cpf : Option String) (s : DB) :
    atletasQuery nome cpf s = s.atletas.filter (matchesFilters nome cpf) := by
  cases hn : truthyFilter nome <;> cases hc : truthyFilter cpf <;>
    simp only [atletasQuery, hn, hc, if_true, if_false, List.filter_filter] <;> first
  | (symm; apply List.filter_eq_self.mpr; intro a _; simp [matchesFilters, hn, hc])
  | (apply List.filter_congr; intro a _; simp [matchesFilters, hn, hc, Bool.and_comm])

/-- Every item of the returned page belongs to the base query. -/
theorem read_atletas_items_mem (nome cpf : Option String) (skip limit : Nat) (s : DB) :
    ∀ a ∈ (read_atletas nome cpf skip limit s).items,
      a ∈ s.atletas ∧ matchesFilters nome cpf a = true := by
  intro a ha
  simp only [read_atletas] at ha
  have h1 : a ∈ (atletasQuery nome cpf s).insertionSort pkle :=
    List.mem_of_mem_drop (List.mem_of_mem_take ha)
  have h2 : a ∈ atletasQuery nome cpf s :=
    (List.perm_insertionSort pkle (atletasQuery nome cpf s)).mem_iff.mp h1
  rw [atletasQuery_eq_filter] at h2
  exact ⟨(List.mem_filter.mp h2).1, (List.mem_filter.mp h2).2⟩

/-- The page is sorted by internal key. -/
theorem read_atletas_items_sorted (nome cpf : Option String) (skip limit : Nat) (s : DB) :
    List.Pairwise pkle (read_atletas nome cpf skip limit s).items := by
  have hs : List.Pairwise pkle ((atletasQuery nome cpf s).insertionSort pkle) :=
    List.sorted_insertionSort pkle (atletasQuery nome cpf s)
  have hsub : ((((atletasQuery nome cpf s).insertionSort pkle).drop skip).take limit).Sublist
      ((atletasQuery nome cpf s).insertionSort pkle) :=
    (List.take_sublist _ _).trans (List.drop_sublist _ _)
  exact List.Pairwise.sublist hsub hs

/-- Claim C5 (confirmed): for a valid pagination window the page never
exceeds the limit and the total is the count of all rows matching the
filters in the whole store, independent of skip and limit. -/
theorem c5_pagination_window :
    ∀ (nome cpf : Option String) (skip limit : Nat) (s : DB),
      1 ≤ limit → limit ≤ 100 →
      (read_atletas nome cpf skip limit s).items.length ≤ limit ∧
      (read_atletas nome cpf skip limit s).total
        = (s.atletas.filter (matchesFilters nome cpf)).length ∧
      ∀ (skip2 limit2 : Nat),
        (read_atletas nome cpf skip2 limit2 s).total
          = (read_atletas nome cpf skip limit s).total := by
  intro nome cpf skip limit s _ _
  refine ⟨?_, ?_, ?_⟩
  · simp only [read_atletas]
    exact List.length_take_le _ _
  · simp only [read_atletas, atletasQuery_eq_filter]
  · intro skip2 limit2
    simp only [read_atletas]

/-- Witness for C5 at the demo store with the default window. -/
theorem c5_pagination_window_witness :
    1 ≤ 10 ∧ (10 : Nat) ≤ 100 ∧
    ((read_atletas none none 0 10 demoDB).items.length ≤ 10 ∧
     (read_atletas none none 0 10 demoDB).total
       = (demoDB.atletas.filter (matchesFilters none none)).length ∧
     ∀ (skip2 limit2 : Nat),
       (read_atletas none none skip2 limit2 demoDB).total
         = (read_atletas none none 0 10 demoDB).total) :=
  ⟨by decide, by decide, c5_pagination_window none none 0 10 demoDB (by decide) (by decide)⟩

/-- Counterexample to claim C6 as stated: on a reachable store holding
one athlete named Ana, the list request that supplies the name filter
as the empty string returns that athlete, whose name is not the
supplied filter value. -/
theorem c6_counterexample_empty_filter :
    Reachable demoDB ∧
    ∃ a ∈ (read_atletas (some "") none 0 10 demoDB).items, a.nome ≠ "" :=
  ⟨⟨demoOps, rfl⟩, by decide⟩

/-- Claim C6 as amended: when a non-empty name filter is supplied
every returned item has exactly that name, when a non-empty cpf filter
is supplied every returned item has exactly that cpf (so both hold
together when both are supplied), and the page is ordered by internal
key ascending. -/
theorem c6_filters_and_order :
    ∀ (nome cpf : Option String) (skip limit : Nat) (s : DB),
      (∀ n, nome = some n → n ≠ "" →
        ∀ a ∈ (read_atletas nome cpf skip limit s).items, a.nome = n) ∧
      (∀ c, cpf = some c → c ≠ "" →
        ∀ a ∈ (read_atletas nome cpf skip limit s).items, a.cpf = c) ∧
      List.Pairwise pkle (read_atletas nome cpf skip limit s).items := by
  intro nome cpf skip limit s
  refine ⟨?_, ?_, read_atletas_items_sorted nome cpf skip limit s⟩
  · intro n hn hne a ha
    have hm := (read_atletas_items_mem nome cpf skip limit s a ha).2
    subst hn
    have hE : n.isEmpty = false := by
      cases hE : n.isEmpty
      · rfl
      · exact absurd ((String.isEmpty_iff _).mp hE) hne
    have htr : truthyFilter (some n) = true := by simp [truthyFilter, hE]
    simp [matchesFilters, htr] at hm
    exact hm.1
  · intro c hc hne a ha
    have hm := (read_atletas_items_mem nome cpf skip limit s a ha).2
    subst hc
    have hE : c.isEmpty = false := by
      cases hE : c.isEmpty
      · rfl
      · exact absurd ((String.isEmpty_iff _).mp hE) hne
    have htr : truthyFilter (some c) = true := by simp [truthyFilter, hE]
    simp [matchesFilters, htr] at hm
    exact hm.2

/-- Witness for C6 as amended: both filters supplied and non-empty at
the demo store. -/
theorem c6_filters_and_order_witness :
    (∀ a ∈ (read_atletas (some "Ana") (some "12345678901") 0 10 demoDB).items, a.nome = "Ana") ∧
    (∀ a ∈ (read_atletas (some "Ana") (some "12345678901") 0 10 demoDB).items, a.cpf = "12345678901") ∧
    List.Pairwise pkle (read_atletas (some "Ana") (some "12345678901") 0 10 demoDB).items :=
  ⟨(c6_filters_and_order (some "Ana") (some "12345678901") 0 10 demoDB).1 "Ana" rfl (by decide),
   (c6_filters_and_order (some "Ana") (some "12345678901") 0 10 demoDB).2.1 "12345678901" rfl (by decide),
   (c6_filters_and_order (some "Ana") (some "12345678901") 0 10 demoDB).2.2⟩

/-- Claim C2: the athlete create checks, in this order, the cpf for a
conflict (409), the referenced categoria (404), the referenced centro
(404), inserting no row in those cases; when all three checks pass the
new row is appended with the supplied fields. -/
theorem c2_create_atleta_check_order :
    ∀ (b : AtletaIn) (s : DB), validAtletaIn b = true →
      ((∃ a ∈ s.atletas, a.cpf = b.cpf) →
        step (.createAtleta b) s = (.conflict, s) ∧
        (step (.createAtleta b) s).1.status = 409) ∧
      ((∀ a ∈ s.atletas, a.cpf ≠ b.cpf) →
       (∀ c ∈ s.categorias, c.pk_id ≠ b.categoria_pk_id) →
        step (.createAtleta b) s = (.notFound, s) ∧
        (step (.createAtleta b) s).1.status = 404) ∧
      ((∀ a ∈ s.atletas, a.cpf ≠ b.cpf) →
       (∃ c ∈ s.categorias, c.pk_id = b.categoria_pk_id) →
       (∀ ct ∈ s.centros_treinamento, ct.pk_id ≠ b.centro_treinamento_pk_id) →
        step (.createAtleta b) s = (.notFound, s) ∧
        (step (.createAtleta b) s).1.status = 404) ∧
      ((∀ a ∈ s.atletas, a.cpf ≠ b.cpf) →
       (∃ c ∈ s.categorias, c.pk_id = b.categoria_pk_id) →
       (∃ ct ∈ s.centros_treinamento, ct.pk_id = b.centro_treinamento_pk_id) →
        ∃ row : Atleta,
          step (.createAtleta b) s =
            (.createdAtleta row,
             { s with atletas := s.atletas ++ [row]
                      next_pk_atleta := s.next_pk_atleta + 1
                      next_uuid := s.next_uuid + 1 }) ∧
          row.nome = b.nome ∧ row.cpf = b.cpf ∧ row.idade = b.idade ∧
          row.peso = b.peso ∧ row.altura = b.altura ∧ row.sexo = b.sexo ∧
          row.categoria_id = b.categoria_pk_id ∧
          row.centro_treinamento_id = b.centro_treinamento_pk_id) := by
  intro b s hv
  refine ⟨?_, ?_, ?_, ?_⟩
  · intro hdup
    have hs : (s.atletas.find? (fun a => a.cpf == b.cpf)).isSome = true := by
      rw [List.find?_isSome]
      obtain ⟨a, ha, he⟩ := hdup
      exact ⟨a, ha, by simp [he]⟩
    obtain ⟨a, ha⟩ := Option.isSome_iff_exists.mp hs
    constructor
    · simp [step, opValid, hv, create_atleta, ha]
    · simp [step, opValid, hv, create_atleta, ha, Resp.status]
  · intro hnodup hnocat
    have hf1 : s.atletas.find? (fun a => a.cpf == b.cpf) = none := by
      rw [List.find?_eq_none]
      intro a ha
      simp [hnodup a ha]
    have hf2 : s.categorias.find? (fun c => c.pk_id == b.categoria_pk_id) = none := by
      rw [List.find?_eq_none]
      intro c hc
      simp [hnocat c hc]
    constructor
    · simp [step, opValid, hv, create_atleta, hf1, hf2]
    · simp [step, opValid, hv, create_atleta, hf1, hf2, Resp.status]
  · intro hnodup hcat hnoct
    have hf1 : s.atletas.find? (fun a => a.cpf == b.cpf) = none := by
      rw [List.find?_eq_none]
      intro a ha
      simp [hnodup a ha]
    have hs2 : (s.categorias.find? (fun c => c.pk_id == b.categoria_pk_id)).isSome = true := by
      rw [List.find?_isSome]
      obtain ⟨c, hc, he⟩ := hcat
      exact ⟨c, hc, by simp [he]⟩
    obtain ⟨c, hc⟩ := Option.isSome_iff_exists.mp hs2
    have hf3 : s.centros_treinamento.find? (fun ct => ct.pk_id == b.centro_treinamento_pk_id) = none := by
      rw [List.find?_eq_none]
      intro ct hct
      simp [hnoct ct hct]
    constructor
    · simp [step, opValid, hv, create_atleta, hf1, hc, hf3]
    · simp [step, opValid, hv, create_atleta, hf1, hc, hf3, Resp.status]
  · intro hnodup hcat hct
    have hf1 : s.atletas.find? (fun a => a.cpf == b.cpf) = none := by
      rw [List.find?_eq_none]
      intro a ha
      simp [hnodup a ha]
    have hs2 : (s.categorias.find? (fun c => c.pk_id == b.categoria_pk_id)).isSome = true := by
      rw [List.find?_isSome]
      obtain ⟨c, hc, he⟩ := hcat
      exact ⟨c, hc, by simp [he]⟩
    obtain ⟨c, hc⟩ := Option.isSome_iff_exists.mp hs2
    have hcpk : c.pk_id = b.categoria_pk_id := by simpa using List.find?_some hc
    have hs3 : (s.centros_treinamento.find? (fun x => x.pk_id == b.centro_treinamento_pk_id)).isSome = true := by
      rw [List.find?_isSome]
      obtain ⟨x, hx, he⟩ := hct
      exact ⟨x, hx, by simp [he]⟩
    obtain ⟨ct, hctf⟩ := Option.isSome_iff_exists.mp hs3
    have hctpk : ct.pk_id = b.centro_treinamento_pk_id := by simpa using List.find?_some hctf
    have hlen : b.nome.length ≤ 100 ∧ cpfDigits b.cpf = true ∧ (b.sexo == "M" || b.sexo == "F") = true := by
      simp only [validAtletaIn, Bool.and_eq_true, decide_eq_true_eq] at hv
      exact ⟨by exact_mod_cast hv.1.1.1.1.1, hv.1.1.1.1.2, hv.2⟩
    have hcpflen : b.cpf.length = 11 := by
      have := hlen.2.1
      simp only [cpfDigits, Bool.and_eq_true, beq_iff_eq] at this
      exact this.1
    have hsexo : b.sexo.length ≤ 1 := by
      have h : b.sexo = "M" ∨ b.sexo = "F" := by simpa using hlen.2.2
      rcases h with h | h <;> rw [h] <;> decide
    have herr : atletaInsertErr
        { pk_id := s.next_pk_atleta, id := s.next_uuid
          nome := b.nome, cpf := b.cpf, idade := b.idade
          peso := b.peso, altura := b.altura, sexo := b.sexo
          created_at := s.now
          categoria_id := c.pk_id
          centro_treinamento_id := ct.pk_id }
        s.atletas s.categorias s.centros_treinamento = none := by
      rw [atletaInsertErr]
      have h1 : ¬ (b.nome.length > 100 || b.cpf.length > 11 || b.sexo.length > 1) = true := by
        simp only [Bool.or_eq_true, decide_eq_true_eq]
        push_neg
        exact ⟨⟨hlen.1, by simp [hcpflen]⟩, hsexo⟩
      rw [if_neg h1]
      have h2 : (s.atletas.any fun a => a.cpf == b.cpf) = false := by
        rw [List.any_eq_false]
        intro a ha
        simp [hnodup a ha]
      rw [if_neg (by simp [h2])]
      have h3 : (s.categorias.any fun x => x.pk_id == c.pk_id) = true := by
        rw [List.any_eq_true]
        exact ⟨c, List.mem_of_find?_eq_some hc, by simp⟩
      rw [if_neg (by simp [h3])]
      have h4 : (s.centros_treinamento.any fun x => x.pk_id == ct.pk_id) = true := by
        rw [List.any_eq_true]
        exact ⟨ct, List.mem_of_find?_eq_some hctf, by simp⟩
      rw [if_neg (by simp [h4])]
    refine ⟨{ pk_id := s.next_pk_atleta, id := s.next_uuid, nome := b.nome, cpf := b.cpf,
              idade := b.idade, peso := b.peso, altura := b.altura, sexo := b.sexo,
              created_at := s.now, categoria_id := c.pk_id, centro_treinamento_id := ct.pk_id },
            ?_, rfl, rfl, rfl, rfl, rfl, rfl, hcpk, hctpk⟩
    simp [step, opValid, hv, create_atleta, hf1, hc, hctf, herr]

/-- Witness for C2, exercising the four branches on the demo store. -/
theorem c2_create_atleta_check_order_witness :
    (step (.createAtleta { nome := "Bea", cpf := "12345678901", idade := 30, peso := 70,
                           altura := 2, sexo := "F", centro_treinamento_pk_id := 1,
                           categoria_pk_id := 1 }) demoDB = (.conflict, demoDB) ∧
     (step (.createAtleta { nome := "Bea", cpf := "12345678901", idade := 30, peso := 70,
                            altura := 2, sexo := "F", centro_treinamento_pk_id := 1,
                            categoria_pk_id := 1 }) demoDB).1.status = 409) ∧
    (step (.createAtleta { nome := "Bea", cpf := "99999999999", idade := 30, peso := 70,
                           altura := 2, sexo := "F", centro_treinamento_pk_id := 1,
                           categoria_pk_id := 99 }) demoDB = (.notFound, demoDB)) ∧
    (step (.createAtleta { nome := "Bea", cpf := "99999999999", idade := 30, peso := 70,
                           altura := 2, sexo := "F", centro_treinamento_pk_id := 99,
                           categoria_pk_id := 1 }) demoDB = (.notFound, demoDB)) ∧
    (∃ row : Atleta,
      step (.createAtleta { nome := "Bea", cpf := "99999999999", idade := 30, peso := 70,
                            altura := 2, sexo := "F", centro_treinamento_pk_id := 1,
                            categoria_pk_id := 1 }) demoDB =
        (.createdAtleta row,
         { demoDB with atletas := demoDB.atletas ++ [row]
                       next_pk_atleta := demoDB.next_pk_atleta + 1
                       next_uuid := demoDB.next_uuid + 1 }) ∧
      row.nome = "Bea" ∧ row.cpf = "99999999999" ∧ row.idade = 30 ∧
      row.peso = 70 ∧ row.altura = 2 ∧ row.sexo = "F" ∧
      row.categoria_id = 1 ∧ row.centro_treinamento_id = 1) :=
  ⟨(c2_create_atleta_check_order _ demoDB (by decide)).1 (by decide),
   ((c2_create_atleta_check_order
      { nome := "Bea", cpf := "99999999999", idade := 30, peso := 70,
        altura := 2, sexo := "F", centro_treinamento_pk_id := 1, categoria_pk_id := 99 }
      demoDB (by decide)).2.1 (by decide) (by decide)).1,
   ((c2_create_atleta_check_order
      { nome := "Bea", cpf := "99999999999", idade := 30, peso := 70,
        altura := 2, sexo := "F", centro_treinamento_pk_id := 99, categoria_pk_id := 1 }
      demoDB (by decide)).2.2.1 (by decide) (by decide) (by decide)).1,
   (c2_create_atleta_check_order
      { nome := "Bea", cpf := "99999999999", idade := 30, peso := 70,
        altura := 2, sexo := "F", centro_treinamento_pk_id := 1, categoria_pk_id := 1 }
      demoDB (by decide)).2.2.2 (by decide) (by decide) (by decide)⟩

/-- Claim C7: deleting an athlete UUID with no record answers 404; a
delete of an existing athlete answers 204 with no body, and a GET for
the same UUID afterwards answers 404. -/
theorem c7_delete_then_get :
    ∀ (id : Nat) (s : DB),
      (s.atletas.find? (fun a => a.id == id) = none →
        step (.deleteAtleta id) s = (.notFound, s) ∧
        (step (.deleteAtleta id) s).1.status = 404) ∧
      (∀ a, s.atletas.find? (fun x => x.id == id) = some a →
        (s.atletas.map (fun x => x.id)).Nodup →
        (step (.deleteAtleta id) s).1 = .noContent ∧
        (step (.deleteAtleta id) s).1.status = 204 ∧
        get_atleta_by_id id (step (.deleteAtleta id) s).2 = .notFound) := by
  intro id s
  constructor
  · intro hnone
    constructor
    · simp [step, opValid, delete_atleta, hnone]
    · simp [step, opValid, delete_atleta, hnone, Resp.status]
  · intro a hfind hnodup
    have hida : a.id = id := by simpa using List.find?_some hfind
    have hmem : a ∈ s.atletas := List.mem_of_find?_eq_some hfind
    have hstate : (step (.deleteAtleta id) s).2 =
        { s with atletas := s.atletas.filter (fun b => b.pk_id != a.pk_id) } := by
      simp [step, opValid, delete_atleta, hfind]
    refine ⟨by simp [step, opValid, delete_atleta, hfind], by simp [step, opValid, delete_atleta, hfind, Resp.status], ?_⟩
    rw [hstate]
    have hgone : (s.atletas.filter (fun b => b.pk_id != a.pk_id)).find? (fun x => x.id == id) = none := by
      rw [List.find?_eq_none]
      intro b hb
      have hb2 := List.mem_filter.mp hb
      intro hbid
      have hbid2 : b.id = a.id := by
        have := beq_iff_eq.mp hbid
        rw [this, hida]
      have hba : b = a := List.inj_on_of_nodup_map hnodup hb2.1 hmem hbid2
      have : b.pk_id ≠ a.pk_id := by simpa using hb2.2
      exact this (by rw [hba])
    simp [get_atleta_by_id, hgone]

/-- Witness for C7: the two branches at the demo store, deleting the
athlete with uuid 2 and probing the absent uuid 77. -/
theorem c7_delete_then_get_witness :
    (step (.deleteAtleta 77) demoDB = (.notFound, demoDB) ∧
     (step (.deleteAtleta 77) demoDB).1.status = 404) ∧
    ((step (.deleteAtleta 2) demoDB).1 = .noContent ∧
     (step (.deleteAtleta 2) demoDB).1.status = 204 ∧
     get_atleta_by_id 2 (step (.deleteAtleta 2) demoDB).2 = .notFound) :=
  ⟨(c7_delete_then_get 77 demoDB).1 (by decide),
   (c7_delete_then_get 2 demoDB).2
     { pk_id := 1, id := 2, nome := "Ana", cpf := "12345678901", idade := 25, peso := 60,
       altura := 2, sexo := "F", created_at := 0, categoria_id := 1, centro_treinamento_id := 1 }
     (by decide) (by decide)⟩

/-- Claim C4: a successful patch applies exactly the supplied fields
and keeps every other field and every other row; an absent field keeps
its prior value (it is not set to null: a field explicitly set to null
can never be part of a successful update), and the identifiers and
creation timestamp are never touched. -/
theorem c4_patch_frame :
    ∀ (id : Nat) (u : AtletaUpdate) (s : DB) (a : Atleta),
      s.atletas.find? (fun x => x.id == id) = some a →
      (step (.updateAtleta id u) s).1.status = 200 →
      (step (.updateAtleta id u) s).1 = .okAtleta (applyUpdate u a) ∧
      (step (.updateAtleta id u) s).2 =
        { s with atletas :=
            s.atletas.map (fun b => if b.pk_id == a.pk_id then applyUpdate u b else b) } ∧
      anySetNull u = false ∧
      (∀ v, u.nome = some (some v) → (applyUpdate u a).nome = v) ∧
      (u.nome = none → (applyUpdate u a).nome = a.nome) ∧
      (∀ v, u.cpf = some (some v) → (applyUpdate u a).cpf = v) ∧
      (u.cpf = none → (applyUpdate u a).cpf = a.cpf) ∧
      (∀ v, u.idade = some (some v) → (applyUpdate u a).idade = v) ∧
      (u.idade = none → (applyUpdate u a).idade = a.idade) ∧
      (∀ v, u.peso = some (some v) → (applyUpdate u a).peso = v) ∧
      (u.peso = none → (applyUpdate u a).peso = a.peso) ∧
      (∀ v, u.altura = some (some v) → (applyUpdate u a).altura = v) ∧
      (u.altura = none → (applyUpdate u a).altura = a.altura) ∧
      (∀ v, u.sexo = some (some v) → (applyUpdate u a).sexo = v) ∧
      (u.sexo = none → (applyUpdate u a).sexo = a.sexo) ∧
      (applyUpdate u a).pk_id = a.pk_id ∧
      (applyUpdate u a).id = a.id ∧
      (applyUpdate u a).created_at = a.created_at ∧
      (applyUpdate u a).categoria_id = a.categoria_id ∧
      (applyUpdate u a).centro_treinamento_id = a.centro_treinamento_id ∧
      (∀ b ∈ s.atletas, b.pk_id ≠ a.pk_id → b ∈ (step (.updateAtleta id u) s).2.atletas) := by
  intro id u s a hfind hok
  have hstep : step (.updateAtleta id u) s = update_atleta id u s := rfl
  rw [hstep] at hok ⊢
  rcases hce : updateCommitErr u (applyUpdate u a)
      (s.atletas.filter (fun b => b.pk_id != a.pk_id)) with _ | f
  case _ =>
    have h2 : (update_atleta id u s).2 =
        { s with atletas :=
            s.atletas.map (fun b => if b.pk_id == a.pk_id then applyUpdate u b else b) } := by
      simp [update_atleta, hfind, hce]
    have hnull : anySetNull u = false := by
      rw [updateCommitErr] at hce
      split_ifs at hce
      simp_all
    refine ⟨by simp [update_atleta, hfind, hce], h2, hnull, ?_⟩
    refine ⟨fun v h => by simp [applyUpdate, setVal, h],
            fun h => by simp [applyUpdate, setVal, h],
            fun v h => by simp [applyUpdate, setVal, h],
            fun h => by simp [applyUpdate, setVal, h],
            fun v h => by simp [applyUpdate, setVal, h],
            fun h => by simp [applyUpdate, setVal, h],
            fun v h => by simp [applyUpdate, setVal, h],
            fun h => by simp [applyUpdate, setVal, h],
            fun v h => by simp [applyUpdate, setVal, h],
            fun h => by simp [applyUpdate, setVal, h],
            fun v h => by simp [applyUpdate, setVal, h],
            fun h => by simp [applyUpdate, setVal, h],
            rfl, rfl, rfl, rfl, rfl, ?_⟩
    intro b hb hbne
    rw [h2]
    refine List.mem_map.mpr ⟨b, hb, ?_⟩
    simp [hbne]
  case _ =>
    exfalso
    cases f
    · have : (update_atleta id u s).1 = Resp.conflict := by
        simp [update_atleta, hfind, hce]
      rw [this] at hok
      simp [Resp.status] at hok
    · have : (update_atleta id u s).1 = Resp.serverError := by
        simp [update_atleta, hfind, hce]
      rw [this] at hok
      simp [Resp.status] at hok

/-- Witness for C4: a successful patch of nome and peso on the demo
athlete leaves the store with exactly those two fields changed. -/
theorem c4_patch_frame_witness :
    (step (.updateAtleta 2 { nome := some (some "Mia"), cpf := none, idade := none,
                             peso := some (some 65), altura := none, sexo := none,
                             categoria_id := none, centro_treinamento_id := none }) demoDB).1
      = .okAtleta (applyUpdate
          { nome := some (some "Mia"), cpf := none, idade := none,
            peso := some (some 65), altura := none, sexo := none,
            categoria_id := none, centro_treinamento_id := none }
          { pk_id := 1, id := 2, nome := "Ana", cpf := "12345678901", idade := 25, peso := 60,
            altura := 2, sexo := "F", created_at := 0, categoria_id := 1,
            centro_treinamento_id := 1 }) ∧
    (step (.updateAtleta 2 { nome := some (some "Mia"), cpf := none, idade := none,
                             peso := some (some 65), altura := none, sexo := none,
                             categoria_id := none, centro_treinamento_id := none }) demoDB).2
      = { demoDB with atletas :=
            demoDB.atletas.map (fun b => if b.pk_id == 1 then
              applyUpdate
                { nome := some (some "Mia"), cpf := none, idade := none,
                  peso := some (some 65), altura := none, sexo := none,
                  categoria_id := none, centro_treinamento_id := none } b else b) } :=
  ⟨(c4_patch_frame 2 _ demoDB
      { pk_id := 1, id := 2, nome := "Ana", cpf := "12345678901", idade := 25, peso := 60,
        altura := 2, sexo := "F", created_at := 0, categoria_id := 1,
        centro_treinamento_id := 1 } (by decide) (by decide)).1,
   (c4_patch_frame 2 _ demoDB
      { pk_id := 1, id := 2, nome := "Ana", cpf := "12345678901", idade := 25, peso := 60,
        altura := 2, sexo := "F", created_at := 0, categoria_id := 1,
        centro_treinamento_id := 1 } (by decide) (by decide)).2.1⟩

/-- The setattr loop never touches the primary key. -/
theorem applyUpdate_pk_id (u : AtletaUpdate) (a : Atleta) :
    (applyUpdate u a).pk_id = a.pk_id := rfl

/-- The structural store invariant only concerns the athlete rows and
their sequence, so it transfers along equality of those fields. -/
theorem storeInv_of_eq {s t : DB} (h : StoreInv s)
    (ha : t.atletas = s.atletas) (hp : t.next_pk_atleta = s.next_pk_atleta) :
    StoreInv t := by
  unfold StoreInv pksNodup pksBounded cpfsNodup at *
  rw [ha, hp]
  exact h

/-- A categoria create touches only the categoria table and its
sequences. -/
theorem create_categoria_keeps_atletas (b : CategoriaIn) (s : DB) :
    (create_categoria b s).2.atletas = s.atletas ∧
    (create_categoria b s).2.next_pk_atleta = s.next_pk_atleta := by
  unfold create_categoria
  split
  · exact ⟨rfl, rfl⟩
  · dsimp only
    split <;> exact ⟨rfl, rfl⟩

/-- A centro create touches only the centro table and its sequences. -/
theorem create_centro_keeps_atletas (b : CentroTreinamentoIn) (s : DB) :
    (create_centro_treinamento b s).2.atletas = s.atletas ∧
    (create_centro_treinamento b s).2.next_pk_atleta = s.next_pk_atleta := by
  unfold create_centro_treinamento
  split
  · exact ⟨rfl, rfl⟩
  · dsimp only
    split <;> exact ⟨rfl, rfl⟩

/-- An athlete insert preserves the structural store invariant. -/
theorem create_atleta_storeInv (b : AtletaIn) (s : DB) (h : StoreInv s) :
    StoreInv (create_atleta b s).2 := by
  cases hf1 : s.atletas.find? (fun a => a.cpf == b.cpf) with
  | some x => simpa [create_atleta, hf1] using h
  | none =>
  cases hf2 : s.categorias.find? (fun c => c.pk_id == b.categoria_pk_id) with
  | none => simpa [create_atleta, hf1, hf2] using h
  | some c =>
  cases hf3 : s.centros_treinamento.find? (fun x => x.pk_id == b.centro_treinamento_pk_id) with
  | none => simpa [create_atleta, hf1, hf2, hf3] using h
  | some ct =>
  have hrow : ∃ row : Atleta, row.pk_id = s.next_pk_atleta ∧ row.cpf = b.cpf ∧
      (create_atleta b s).2 = { s with atletas := s.atletas ++ [row]
                                       next_pk_atleta := s.next_pk_atleta + 1
                                       next_uuid := s.next_uuid + 1 } ∨
      (create_atleta b s).2 = s := by
    cases herr : atletaInsertErr
        { pk_id := s.next_pk_atleta, id := s.next_uuid, nome := b.nome, cpf := b.cpf,
          idade := b.idade, peso := b.peso, altura := b.altura, sexo := b.sexo,
          created_at := s.now, categoria_id := c.pk_id, centro_treinamento_id := ct.pk_id }
        s.atletas s.categorias s.centros_treinamento with
    | some e =>
      refine ⟨{ pk_id := s.next_pk_atleta, id := s.next_uuid, nome := b.nome, cpf := b.cpf,
                idade := b.idade, peso := b.peso, altura := b.altura, sexo := b.sexo,
                created_at := s.now, categoria_id := c.pk_id,
                centro_treinamento_id := ct.pk_id }, ?_⟩
      right
      cases e <;> simp [create_atleta, hf1, hf2, hf3, herr]
    | none =>
      refine ⟨{ pk_id := s.next_pk_atleta, id := s.next_uuid, nome := b.nome, cpf := b.cpf,
                idade := b.idade, peso := b.peso, altura := b.altura, sexo := b.sexo,
                created_at := s.now, categoria_id := c.pk_id,
                centro_treinamento_id := ct.pk_id }, ?_⟩
      left
      exact ⟨rfl, rfl, by simp [create_atleta, hf1, hf2, hf3, herr]⟩
  obtain ⟨row, hcase⟩ := hrow
  rcases hcase with ⟨hpk, hcpfrow, heq⟩ | heq
  · rw [heq]
    obtain ⟨hnd, hbd, hcpf⟩ := h
    refine ⟨?_, ?_, ?_⟩
    · unfold pksNodup at *
      simp only [List.map_append, List.map_cons, List.map_nil]
      rw [List.nodup_append]
      refine ⟨hnd, List.nodup_singleton _, ?_⟩
      intro x hx hx2
      obtain ⟨a, ha, rfl⟩ := List.mem_map.mp hx
      have hlt := hbd a ha
      have : a.pk_id = row.pk_id := by simpa using hx2
      rw [this, hpk] at hlt
      omega
    · unfold pksBounded at *
      intro a ha
      rcases List.mem_append.mp ha with ha | ha
      · exact Nat.lt_trans (hbd a ha) (Nat.lt_succ_self _)
      · have : a = row := by simpa using ha
        rw [this, hpk]
        exact Nat.lt_succ_self _
    · unfold cpfsNodup at *
      simp only [List.map_append, List.map_cons, List.map_nil]
      rw [List.nodup_append]
      refine ⟨hcpf, List.nodup_singleton _, ?_⟩
      intro x hx hx2
      obtain ⟨a, ha, rfl⟩ := List.mem_map.mp hx
      have hne := List.find?_eq_none.mp hf1 a ha
      have : a.cpf = row.cpf := by simpa using hx2
      rw [this, hcpfrow] at hne
      simp at hne
  · rw [heq]
    exact h

/-- Replacing every row of a given primary key (a unique one, by the
Nodup hypothesis) by its patched version whose cpf collides with no
other row keeps the cpfs pairwise distinct. -/
theorem nodup_cpf_map_update (u : AtletaUpdate) (pk : Nat) (v : String) :
    ∀ l : List Atleta,
      (l.map (fun x => x.pk_id)).Nodup →
      (l.map (fun x => x.cpf)).Nodup →
      (∀ b ∈ l, b.pk_id ≠ pk → b.cpf ≠ v) →
      (∀ b ∈ l, b.pk_id = pk → (applyUpdate u b).cpf = v) →
      ((l.map (fun b => if b.pk_id == pk then applyUpdate u b else b)).map
        (fun x => x.cpf)).Nodup := by
  intro l
  induction l with
  | nil => intro _ _ _ _; simp
  | cons x rest ih =>
    intro hpk hcpf hne hval
    simp only [List.map_cons, List.nodup_cons] at hpk hcpf ⊢
    by_cases hx : x.pk_id = pk
    · have hrest_pk : ∀ b ∈ rest, b.pk_id ≠ pk := by
        intro b hb hbpk
        exact hpk.1 (List.mem_map.mpr ⟨b, hb, by rw [hbpk, hx]⟩)
      have hrest_id : rest.map (fun b => if b.pk_id == pk then applyUpdate u b else b) = rest := by
        have hpt : ∀ b ∈ rest, (if b.pk_id == pk then applyUpdate u b else b) = b := by
          intro b hb
          simp [hrest_pk b hb]
        calc rest.map (fun b => if b.pk_id == pk then applyUpdate u b else b)
            = rest.map (fun b => b) := List.map_congr_left hpt
          _ = rest := List.map_id' rest
      rw [hrest_id]
      constructor
      · rw [if_pos (show (x.pk_id == pk) = true by simpa using hx)]
        rw [hval x (List.mem_cons_self x rest) hx]
        intro hvmem
        obtain ⟨b, hb, hbv⟩ := List.mem_map.mp hvmem
        exact hne b (List.mem_cons_of_mem x hb) (hrest_pk b hb) hbv
      · exact hcpf.2
    · rw [if_neg (show ¬ (x.pk_id == pk) = true by simpa using hx)]
      constructor
      · intro hmem
        obtain ⟨y, hy, hyv⟩ := List.mem_map.mp hmem
        obtain ⟨b, hb, rfl⟩ := List.mem_map.mp hy
        by_cases hbpk : b.pk_id = pk
        · rw [if_pos (by simpa using hbpk)] at hyv
          rw [hval b (List.mem_cons_of_mem x hb) hbpk] at hyv
          exact hne x (List.mem_cons_self x rest) hx hyv.symm
        · rw [if_neg (by simpa using hbpk)] at hyv
          exact hcpf.1 (List.mem_map.mpr ⟨b, hb, hyv⟩)
      · exact ih hpk.2 hcpf.2
          (fun b hb => hne b (List.mem_cons_of_mem x hb))
          (fun b hb => hval b (List.mem_cons_of_mem x hb))

/-- A patch preserves the structural store invariant. -/
theorem update_atleta_storeInv (id : Nat) (u : AtletaUpdate) (s : DB) (h : StoreInv s) :
    StoreInv (update_atleta id u s).2 := by
  cases hf : s.atletas.find? (fun a => a.id == id) with
  | none => simpa [update_atleta, hf] using h
  | some a =>
  cases herr : updateCommitErr u (applyUpdate u a)
      (s.atletas.filter (fun b => b.pk_id != a.pk_id)) with
  | some f => cases f <;> simpa [update_atleta, hf, herr] using h
  | none =>
    have h2 : (update_atleta id u s).2 =
        { s with atletas :=
            s.atletas.map (fun b => if b.pk_id == a.pk_id then applyUpdate u b else b) } := by
      simp [update_atleta, hf, herr]
    rw [h2]
    obtain ⟨hnd, hbd, hcpf⟩ := h
    have hmem : a ∈ s.atletas := List.mem_of_find?_eq_some hf
    have hnocoll : ∀ b ∈ s.atletas, b.pk_id ≠ a.pk_id → b.cpf ≠ (applyUpdate u a).cpf := by
      rw [updateCommitErr] at herr
      split_ifs at herr with g1 g2 g3 g4
      intro b hb hbpk hbv
      apply g4
      rw [List.any_eq_true]
      refine ⟨b, ?_, by simp [hbv]⟩
      rw [List.mem_filter]
      exact ⟨hb, by simpa using hbpk⟩
    refine ⟨?_, ?_, ?_⟩
    · unfold pksNodup at *
      have hpkmap : ((s.atletas.map (fun b => if b.pk_id == a.pk_id then applyUpdate u b else b)).map
          (fun x => x.pk_id)) = s.atletas.map (fun x => x.pk_id) := by
        rw [List.map_map]
        apply List.map_congr_left
        intro b _
        by_cases hb : b.pk_id = a.pk_id
        · simp only [Function.comp]
          rw [if_pos (by simpa using hb), applyUpdate_pk_id]
        · simp only [Function.comp]
          rw [if_neg (by simpa using hb)]
      rw [hpkmap]
      exact hnd
    · unfold pksBounded at *
      intro x hx
      obtain ⟨b, hb, rfl⟩ := List.mem_map.mp hx
      by_cases hbpk : b.pk_id = a.pk_id
      · rw [if_pos (by simpa using hbpk), applyUpdate_pk_id]
        exact hbd b hb
      · rw [if_neg (by simpa using hbpk)]
        exact hbd b hb
    · unfold cpfsNodup at *
      apply nodup_cpf_map_update u a.pk_id (applyUpdate u a).cpf s.atletas hnd hcpf hnocoll
      intro b hb hbpk
      have hba : b = a := List.inj_on_of_nodup_map hnd hb hmem hbpk
      rw [hba]

/-- A delete preserves the structural store invariant. -/
theorem delete_atleta_storeInv (id : Nat) (s : DB) (h : StoreInv s) :
    StoreInv (delete_atleta id s).2 := by
  cases hf : s.atletas.find? (fun a => a.id == id) with
  | none => simpa [delete_atleta, hf] using h
  | some a =>
    have h2 : (delete_atleta id s).2 =
        { s with atletas := s.atletas.filter (fun b => b.pk_id != a.pk_id) } := by
      simp [delete_atleta, hf]
    rw [h2]
    obtain ⟨hnd, hbd, hcpf⟩ := h
    refine ⟨?_, ?_, ?_⟩
    · unfold pksNodup at *
      exact List.Nodup.sublist (List.Sublist.map _ (List.filter_sublist _)) hnd
    · unfold pksBounded at *
      intro x hx
      exact hbd x (List.mem_filter.mp hx).1
    · unfold cpfsNodup at *
      exact List.Nodup.sublist (List.Sublist.map _ (List.filter_sublist _)) hcpf

/-- Every single request preserves the structural store invariant. -/
theorem step_storeInv (op : Op) (s : DB) (h : StoreInv s) : StoreInv (step op s).2 := by
  by_cases hv : opValid op = true
  · cases op with
    | root => simpa [step, hv] using h
    | readCategorias skip limit => simpa [step, hv] using h
    | getCategoriaById id => simpa [step, hv] using h
    | createCategoria b =>
      have hk := create_categoria_keeps_atletas b s
      have h2 : (step (.createCategoria b) s).2 = (create_categoria b s).2 := by
        simp [step, hv]
      rw [h2]
      exact storeInv_of_eq h hk.1 hk.2
    | createCentroTreinamento b =>
      have hk := create_centro_keeps_atletas b s
      have h2 : (step (.createCentroTreinamento b) s).2 = (create_centro_treinamento b s).2 := by
        simp [step, hv]
      rw [h2]
      exact storeInv_of_eq h hk.1 hk.2
    | readCentrosTreinamento skip limit => simpa [step, hv] using h
    | getCentroTreinamentoById id => simpa [step, hv] using h
    | createAtleta b =>
      have h2 : (step (.createAtleta b) s).2 = (create_atleta b s).2 := by
        simp [step, hv]
      rw [h2]
      exact create_atleta_storeInv b s h
    | updateAtleta id u =>
      have h2 : (step (.updateAtleta id u) s).2 = (update_atleta id u s).2 := by
        simp [step, hv]
      rw [h2]
      exact update_atleta_storeInv id u s h
    | deleteAtleta id =>
      have h2 : (step (.deleteAtleta id) s).2 = (delete_atleta id s).2 := by
        simp [step, hv]
      rw [h2]
      exact delete_atleta_storeInv id s h
    | readAtletas nome cpf skip limit => simpa [step, hv] using h
    | getAtletaById id => simpa [step, hv] using h
  · have hv2 : opValid op = false := by simpa using hv
    simpa [step, hv2] using h

/-- Request sequences preserve the structural store invariant. -/
theorem exec_storeInv : ∀ (ops : List Op) (s : DB), StoreInv s → StoreInv (exec ops s)
  | [], _, h => h
  | op :: rest, s, h => exec_storeInv rest (step op s).2 (step_storeInv op s h)

/-- The empty store satisfies the structural invariant. -/
theorem storeInv_empty : StoreInv DB.empty := by
  refine ⟨?_, ?_, ?_⟩ <;> simp [pksNodup, pksBounded, cpfsNodup, DB.empty]

/-- Every reachable store satisfies the structural invariant. -/
theorem reachable_storeInv (s : DB) (h : Reachable s) : StoreInv s := by
  obtain ⟨ops, hops⟩ := h
  rw [← hops]
  exact exec_storeInv ops DB.empty storeInv_empty

/-- A validated athlete insert only adds rows satisfying the field
invariants. -/
theorem create_atleta_fieldOk (b : AtletaIn) (s : DB) (hv : validAtletaIn b = true)
    (h : ∀ a ∈ s.atletas, atletaFieldOk a) :
    ∀ a ∈ (create_atleta b s).2.atletas, atletaFieldOk a := by
  have hv2 := hv
  simp only [validAtletaIn, Bool.and_eq_true, decide_eq_true_eq] at hv2
  have hcpf : b.cpf.length = 11 ∧ b.cpf.toList.all Char.isDigit = true := by
    have := hv2.1.1.1.1.2
    simp only [cpfDigits, Bool.and_eq_true, beq_iff_eq] at this
    exact this
  have hsexo : b.sexo = "M" ∨ b.sexo = "F" := by simpa using hv2.2
  have hrowOk : ∀ (pk uid catid ctid now : Nat), atletaFieldOk
      { pk_id := pk, id := uid, nome := b.nome, cpf := b.cpf, idade := b.idade,
        peso := b.peso, altura := b.altura, sexo := b.sexo,
        created_at := now, categoria_id := catid, centro_treinamento_id := ctid } := by
    intro pk uid catid ctid now
    exact ⟨hv2.1.1.1.2, hv2.1.1.2, hv2.1.2, hsexo, hcpf.1, hcpf.2⟩
  cases hf1 : s.atletas.find? (fun a => a.cpf == b.cpf) with
  | some x => simpa [create_atleta, hf1] using h
  | none =>
  cases hf2 : s.categorias.find? (fun c => c.pk_id == b.categoria_pk_id) with
  | none => simpa [create_atleta, hf1, hf2] using h
  | some c =>
  cases hf3 : s.centros_treinamento.find? (fun x => x.pk_id == b.centro_treinamento_pk_id) with
  | none => simpa [create_atleta, hf1, hf2, hf3] using h
  | some ct =>
  cases herr : atletaInsertErr
      { pk_id := s.next_pk_atleta, id := s.next_uuid, nome := b.nome, cpf := b.cpf,
        idade := b.idade, peso := b.peso, altura := b.altura, sexo := b.sexo,
        created_at := s.now, categoria_id := c.pk_id, centro_treinamento_id := ct.pk_id }
      s.atletas s.categorias s.centros_treinamento with
  | some e => cases e <;> simpa [create_atleta, hf1, hf2, hf3, herr] using h
  | none =>
    have h2 : (create_atleta b s).2.atletas = s.atletas ++
        [{ pk_id := s.next_pk_atleta, id := s.next_uuid, nome := b.nome, cpf := b.cpf,
           idade := b.idade, peso := b.peso, altura := b.altura, sexo := b.sexo,
           created_at := s.now, categoria_id := c.pk_id,
           centro_treinamento_id := ct.pk_id }] := by
      simp [create_atleta, hf1, hf2, hf3, herr]
    rw [h2]
    intro a ha
    rcases List.mem_append.mp ha with ha | ha
    · exact h a ha
    · have : a = { pk_id := s.next_pk_atleta, id := s.next_uuid, nome := b.nome, cpf := b.cpf,
                   idade := b.idade, peso := b.peso, altura := b.altura, sexo := b.sexo,
                   created_at := s.now, categoria_id := c.pk_id,
                   centro_treinamento_id := ct.pk_id } := by simpa using ha
      rw [this]
      exact hrowOk _ _ _ _ _

/-- A delete only removes rows, so the field invariants persist. -/
theorem delete_atleta_fieldOk (id : Nat) (s : DB)
    (h : ∀ a ∈ s.atletas, atletaFieldOk a) :
    ∀ a ∈ (delete_atleta id s).2.atletas, atletaFieldOk a := by
  cases hf : s.atletas.find? (fun a => a.id == id) with
  | none => simpa [delete_atleta, hf] using h
  | some x =>
    have h2 : (delete_atleta id s).2.atletas =
        s.atletas.filter (fun b => b.pk_id != x.pk_id) := by
      simp [delete_atleta, hf]
    rw [h2]
    intro a ha
    exact h a (List.mem_filter.mp ha).1

/-- Any request other than a patch keeps every athlete row inside the
field invariants. -/
theorem step_fieldOk (op : Op) (s : DB) (hnp : isPatchOp op = false)
    (h : ∀ a ∈ s.atletas, atletaFieldOk a) :
    ∀ a ∈ (step op s).2.atletas, atletaFieldOk a := by
  by_cases hv : opValid op = true
  · cases op with
    | root => simpa [step, hv] using h
    | readCategorias skip limit => simpa [step, hv] using h
    | getCategoriaById id => simpa [step, hv] using h
    | createCategoria b =>
      have hk := create_categoria_keeps_atletas b s
      have h2 : (step (.createCategoria b) s).2 = (create_categoria b s).2 := by
        simp [step, hv]
      rw [h2, hk.1]
      exact h
    | createCentroTreinamento b =>
      have hk := create_centro_keeps_atletas b s
      have h2 : (step (.createCentroTreinamento b) s).2 = (create_centro_treinamento b s).2 := by
        simp [step, hv]
      rw [h2, hk.1]
      exact h
    | readCentrosTreinamento skip limit => simpa [step, hv] using h
    | getCentroTreinamentoById id => simpa [step, hv] using h
    | createAtleta b =>
      have h2 : (step (.createAtleta b) s).2 = (create_atleta b s).2 := by
        simp [step, hv]
      rw [h2]
      exact create_atleta_fieldOk b s (by simpa [opValid] using hv) h
    | updateAtleta id u => simp [isPatchOp] at hnp
    | deleteAtleta id =>
      have h2 : (step (.deleteAtleta id) s).2 = (delete_atleta id s).2 := by
        simp [step, hv]
      rw [h2]
      exact delete_atleta_fieldOk id s h
    | readAtletas nome cpf skip limit => simpa [step, hv] using h
    | getAtletaById id => simpa [step, hv] using h
  · have hv2 : opValid op = false := by simpa using hv
    simpa [step, hv2] using h

/-- Patch-free request sequences keep every athlete row inside the
field invariants. -/
theorem exec_fieldOk : ∀ (ops : List Op) (s : DB),
    ops.all (fun op => !isPatchOp op) = true →
    (∀ a ∈ s.atletas, atletaFieldOk a) →
    ∀ a ∈ (exec ops s).atletas, atletaFieldOk a := by
  intro ops
  induction ops with
  | nil => intro s _ h; exact h
  | cons op rest ih =>
    intro s hall h
    rw [List.all_cons, Bool.and_eq_true] at hall
    have hnp : isPatchOp op = false := by simpa using hall.1
    exact ih (step op s).2 hall.2 (step_fieldOk op s hnp h)

/-- Counterexample to claim C3 as stated: the patch endpoint accepts
an update that sets idade to -5, so a reachable store contains an
athlete row violating the positivity invariant. -/
theorem c3_counterexample_patch_breaks_fields :
    Reachable (exec patchOps DB.empty) ∧
    ∃ a ∈ (exec patchOps DB.empty).atletas, ¬ 0 < a.idade :=
  ⟨⟨patchOps, rfl⟩, by decide⟩

/-- Claim C3 as amended: in every reachable store no two athletes
share a cpf (the unique index backs this even across patches); the
remaining field invariants (positive idade, peso, altura, sexo M or F,
cpf of 11 digits) hold in every store reachable without the patch
endpoint, which performs no input validation. -/
theorem c3_amended_invariants :
    (∀ s : DB, Reachable s → (s.atletas.map (fun a => a.cpf)).Nodup) ∧
    (∀ s : DB, ReachableNoPatch s → ∀ a ∈ s.atletas, atletaFieldOk a) := by
  constructor
  · intro s h
    exact (reachable_storeInv s h).2.2
  · intro s h
    obtain ⟨ops, hall, hops⟩ := h
    rw [← hops]
    exact exec_fieldOk ops DB.empty hall (by simp [DB.empty])

/-- Witness for the amended C3 at the demo store. -/
theorem c3_amended_invariants_witness :
    Reachable demoDB ∧ (demoDB.atletas.map (fun a => a.cpf)).Nodup ∧
    ReachableNoPatch demoDB ∧ ∀ a ∈ demoDB.atletas, atletaFieldOk a :=
  ⟨⟨demoOps, rfl⟩, c3_amended_invariants.1 demoDB ⟨demoOps, rfl⟩,
   ⟨demoOps, by decide, rfl⟩, c3_amended_invariants.2 demoDB ⟨demoOps, by decide, rfl⟩⟩

/-- A failing categoria create leaves the store unchanged and carries
one of the taxonomy statuses. -/
theorem create_categoria_atomic (b : CategoriaIn) (s : DB) :
    isErrResp (create_categoria b s).1 = true →
    (create_categoria b s).2 = s ∧
    ((create_categoria b s).1.status = 303 ∨ (create_categoria b s).1.status = 404 ∨
     (create_categoria b s).1.status = 409 ∨ (create_categoria b s).1.status = 422 ∨
     (create_categoria b s).1.status = 500) := by
  unfold create_categoria
  split
  · intro _
    exact ⟨rfl, by simp [Resp.status]⟩
  · dsimp only
    split
    · intro _; exact ⟨rfl, by simp [Resp.status]⟩
    · intro _; exact ⟨rfl, by simp [Resp.status]⟩
    · intro _; exact ⟨rfl, by simp [Resp.status]⟩
    · intro _; exact ⟨rfl, by simp [Resp.status]⟩
    · intro h; exact absurd h (by simp [isErrResp, Resp.status])

/-- A failing centro create leaves the store unchanged and carries one
of the taxonomy statuses. -/
theorem create_centro_atomic (b : CentroTreinamentoIn) (s : DB) :
    isErrResp (create_centro_treinamento b s).1 = true →
    (create_centro_treinamento b s).2 = s ∧
    ((create_centro_treinamento b s).1.status = 303 ∨ (create_centro_treinamento b s).1.status = 404 ∨
     (create_centro_treinamento b s).1.status = 409 ∨ (create_centro_treinamento b s).1.status = 422 ∨
     (create_centro_treinamento b s).1.status = 500) := by
  unfold create_centro_treinamento
  split
  · intro _
    exact ⟨rfl, by simp [Resp.status]⟩
  · dsimp only
    split
    · intro _; exact ⟨rfl, by simp [Resp.status]⟩
    · intro _; exact ⟨rfl, by simp [Resp.status]⟩
    · intro _; exact ⟨rfl, by simp [Resp.status]⟩
    · intro _; exact ⟨rfl, by simp [Resp.status]⟩
    · intro h; exact absurd h (by simp [isErrResp, Resp.status])

/-- A failing athlete create leaves the store unchanged and carries
one of the taxonomy statuses. -/
theorem create_atleta_atomic (b : AtletaIn) (s : DB) :
    isErrResp (create_atleta b s).1 = true →
    (create_atleta b s).2 = s ∧
    ((create_atleta b s).1.status = 303 ∨ (create_atleta b s).1.status = 404 ∨
     (create_atleta b s).1.status = 409 ∨ (create_atleta b s).1.status = 422 ∨
     (create_atleta b s).1.status = 500) := by
  unfold create_atleta
  split
  · intro _; exact ⟨rfl, by simp [Resp.status]⟩
  · split
    · intro _; exact ⟨rfl, by simp [Resp.status]⟩
    · split
      · intro _; exact ⟨rfl, by simp [Resp.status]⟩
      · dsimp only
        split
        · intro _; exact ⟨rfl, by simp [Resp.status]⟩
        · intro _; exact ⟨rfl, by simp [Resp.status]⟩
        · intro _; exact ⟨rfl, by simp [Resp.status]⟩
        · intro _; exact ⟨rfl, by simp [Resp.status]⟩
        · intro h; exact absurd h (by simp [isErrResp, Resp.status])

/-- A failing patch leaves the store unchanged and carries one of the
taxonomy statuses. -/
theorem update_atleta_atomic (id : Nat) (u : AtletaUpdate) (s : DB) :
    isErrResp (update_atleta id u s).1 = true →
    (update_atleta id u s).2 = s ∧
    ((update_atleta id u s).1.status = 303 ∨ (update_atleta id u s).1.status = 404 ∨
     (update_atleta id u s).1.status = 409 ∨ (update_atleta id u s).1.status = 422 ∨
     (update_atleta id u s).1.status = 500) := by
  unfold update_atleta
  split
  · intro _; exact ⟨rfl, by simp [Resp.status]⟩
  · dsimp only
    split
    · intro _; exact ⟨rfl, by simp [Resp.status]⟩
    · intro _; exact ⟨rfl, by simp [Resp.status]⟩
    · intro h; exact absurd h (by simp [isErrResp, Resp.status])

/-- A failing delete leaves the store unchanged and carries one of the
taxonomy statuses. -/
theorem delete_atleta_atomic (id : Nat) (s : DB) :
    isErrResp (delete_atleta id s).1 = true →
    (delete_atleta id s).2 = s ∧
    ((delete_atleta id s).1.status = 303 ∨ (delete_atleta id s).1.status = 404 ∨
     (delete_atleta id s).1.status = 409 ∨ (delete_atleta id s).1.status = 422 ∨
     (delete_atleta id s).1.status = 500) := by
  unfold delete_atleta
  split
  · intro _; exact ⟨rfl, by simp [Resp.status]⟩
  · intro h; exact absurd h (by simp [isErrResp, Resp.status])

/-- Claim C8: any request whose outcome is not a success (redirect or
error) leaves the store exactly as it was (the transaction is rolled
back before the outcome surfaces, so there is no partial commit), the
outcome carries exactly one taxonomy status (303, 404, 409, 422, 500),
and a request failing input validation is answered with the constant
422 outcome and the untouched store, with the response independent of
the store contents. -/
theorem c8_failure_atomicity :
    ∀ (op : Op) (s : DB),
      (isErrResp (step op s).1 = true →
        (step op s).2 = s ∧
        ((step op s).1.status = 303 ∨ (step op s).1.status = 404 ∨
         (step op s).1.status = 409 ∨ (step op s).1.status = 422 ∨
         (step op s).1.status = 500)) ∧
      (opValid op = false → step op s = (.unprocessable, s)) := by
  intro op s
  constructor
  · intro herr
    by_cases hv : opValid op = true
    · cases op with
      | root => exact absurd herr (by simp [step, hv, isErrResp, Resp.status])
      | readCategorias skip limit =>
        exact absurd herr (by simp [step, hv, isErrResp, Resp.status])
      | getCategoriaById id =>
        refine ⟨by simp [step, hv], ?_⟩
        have h2 : (step (.getCategoriaById id) s).1 = get_categoria_by_id id s := by
          simp [step, hv]
        rw [h2] at herr ⊢
        cases hf : s.categorias.find? (fun c => c.id == id) with
        | none => simp [get_categoria_by_id, hf, Resp.status]
        | some c => exact absurd herr (by simp [get_categoria_by_id, hf, isErrResp, Resp.status])
      | createCategoria b =>
        have h2 : step (.createCategoria b) s = create_categoria b s := by
          simp [step, hv]
        rw [h2] at herr ⊢
        exact create_categoria_atomic b s herr
      | createCentroTreinamento b =>
        have h2 : step (.createCentroTreinamento b) s = create_centro_treinamento b s := by
          simp [step, hv]
        rw [h2] at herr ⊢
        exact create_centro_atomic b s herr
      | readCentrosTreinamento skip limit =>
        exact absurd herr (by simp [step, hv, isErrResp, Resp.status])
      | getCentroTreinamentoById id =>
        refine ⟨by simp [step, hv], ?_⟩
        have h2 : (step (.getCentroTreinamentoById id) s).1 = get_centro_treinamento_by_id id s := by
          simp [step, hv]
        rw [h2] at herr ⊢
        cases hf : s.centros_treinamento.find? (fun c => c.id == id) with
        | none => simp [get_centro_treinamento_by_id, hf, Resp.status]
        | some c =>
          exact absurd herr (by simp [get_centro_treinamento_by_id, hf, isErrResp, Resp.status])
      | createAtleta b =>
        have h2 : step (.createAtleta b) s = create_atleta b s := by
          simp [step, hv]
        rw [h2] at herr ⊢
        exact create_atleta_atomic b s herr
      | updateAtleta id u =>
        have h2 : step (.updateAtleta id u) s = update_atleta id u s := by
          simp [step, hv]
        rw [h2] at herr ⊢
        exact update_atleta_atomic id u s herr
      | deleteAtleta id =>
        have h2 : step (.deleteAtleta id) s = delete_atleta id s := by
          simp [step, hv]
        rw [h2] at herr ⊢
        exact delete_atleta_atomic id s herr
      | readAtletas nome cpf skip limit =>
        exact absurd herr (by simp [step, hv, isErrResp, Resp.status])
      | getAtletaById id =>
        refine ⟨by simp [step, hv], ?_⟩
        have h2 : (step (.getAtletaById id) s).1 = get_atleta_by_id id s := by
          simp [step, hv]
        rw [h2] at herr ⊢
        cases hf : s.atletas.find? (fun a => a.id == id) with
        | none => simp [get_atleta_by_id, hf, Resp.status]
        | some a => exact absurd herr (by simp [get_atleta_by_id, hf, isErrResp, Resp.status])
    · have hv2 : opValid op = false := by simpa using hv
      refine ⟨by simp [step, hv2], ?_⟩
      simp [step, hv2, Resp.status]
  · intro hv
    simp [step, hv]

/-- Witness for C8: the invalid pagination limit of 0 yields the
constant validation outcome, and the conflicting duplicate-cpf create
is a failure that leaves the demo store unchanged with status 409. -/
theorem c8_failure_atomicity_witness :
    ((step (.createAtleta { nome := "Bea", cpf := "12345678901", idade := 30, peso := 70,
                            altura := 2, sexo := "F", centro_treinamento_pk_id := 1,
                            categoria_pk_id := 1 }) demoDB).2 = demoDB ∧
     ((step (.createAtleta { nome := "Bea", cpf := "12345678901", idade := 30, peso := 70,
                             altura := 2, sexo := "F", centro_treinamento_pk_id := 1,
                             categoria_pk_id := 1 }) demoDB).1.status = 303 ∨
      (step (.createAtleta { nome := "Bea", cpf := "12345678901", idade := 30, peso := 70,
                             altura := 2, sexo := "F", centro_treinamento_pk_id := 1,
                             categoria_pk_id := 1 }) demoDB).1.status = 404 ∨
      (step (.createAtleta { nome := "Bea", cpf := "12345678901", idade := 30, peso := 70,
                             altura := 2, sexo := "F", centro_treinamento_pk_id := 1,
                             categoria_pk_id := 1 }) demoDB).1.status = 409 ∨
      (step (.createAtleta { nome := "Bea", cpf := "12345678901", idade := 30, peso := 70,
                             altura := 2, sexo := "F", centro_treinamento_pk_id := 1,
                             categoria_pk_id := 1 }) demoDB).1.status = 422 ∨
      (step (.createAtleta { nome := "Bea", cpf := "12345678901", idade := 30, peso := 70,
                             altura := 2, sexo := "F", centro_treinamento_pk_id := 1,
                             categoria_pk_id := 1 }) demoDB).1.status = 500)) ∧
    step (.readAtletas none none 0 0) demoDB = (.unprocessable, demoDB) :=
  ⟨(c8_failure_atomicity (.createAtleta { nome := "Bea", cpf := "12345678901", idade := 30,
                                          peso := 70, altura := 2, sexo := "F",
                                          centro_treinamento_pk_id := 1,
                                          categoria_pk_id := 1 }) demoDB).1 (by decide),
   (c8_failure_atomicity (.readAtletas none none 0 0) demoDB).2 (by decide)⟩
